import Mathlib

/-!
Verification development for the PL/Rust user-function pipeline.

The definitions below are shallow embeddings of the Rust sources:
  * `src/src/plrust.rs` (wasm pipeline: source splitting, code generation,
    crate creation, compilation, wasm dispatch and marshalling),
  * `src/plrust/src/target.rs` (host target-tuple resolution),
  * `src/plrust/src/gucs.rs` (lint and cross-compilation-target configuration),
  * `src/src/user_crate/state_provisioned.rs` (native pipeline build step).

External effects (file writes, process spawning, the wasm engine, the guest
allocator, bincode serialization) are made explicit: file/process actions are
recorded in a trace, and external outcomes (the cargo exit status and output,
the guest module behaviour, guest memory) are parameters of the embedding.
-/

namespace PlRust

/-! ## Byte-level helpers (guest memory is a byte store) -/

/-- Read one byte of guest linear memory.  The memory is modelled as a
function from addresses to machine bytes; the `% 256` keeps values in `u8`
range as `wasmtime`'s `Memory::read` does. -/
def readByte (mem : Nat → Nat) (a : Nat) : Nat := mem a % 256

/-- Read `n` consecutive bytes starting at address `a`, mirroring a single
`Memory::read` into an `n`-byte buffer. -/
def readBytes (mem : Nat → Nat) (a n : Nat) : List Nat :=
  (List.range n).map (fun i => readByte mem (a + i))

/-- Little-endian interpretation of a byte list, mirroring
`u64::from_le_bytes`. -/
def leBytesToNat (bs : List Nat) : Nat :=
  bs.foldr (fun b acc => b + 256 * acc) 0

/-- Reinterpret an `i64` value as a `usize` (64-bit), mirroring Rust's
`guest_ptr as usize` two's-complement cast. -/
def i64ToUsize (i : Int) : Nat := (i % (2 ^ 64 : Int)).toNat

/-- Reinterpret a `u64` value as an `i64`, mirroring Rust's
`guest_ptr as i64` cast. -/
def u64ToI64 (n : Nat) : Int :=
  if n % 2 ^ 64 < 2 ^ 63 then ((n % 2 ^ 64 : Nat) : Int)
  else ((n % 2 ^ 64 : Nat) : Int) - 2 ^ 64

/-! ## String helpers mirroring the Rust `str` methods the sources use -/

/-- Rust `str::split(sep)` on the character list of a string: the segments
between occurrences of `sep` (an empty segment for adjacent separators, a
leading/trailing one at a leading/trailing separator). -/
def splitChar (sep : Char) (l : List Char) : List (List Char) :=
  l.foldr
    (fun x acc =>
      match acc with
      | [] => [[]]
      | cur :: rest => if x = sep then [] :: cur :: rest else (x :: cur) :: rest)
    [[]]

/-- Rust `str::trim` on a character list: remove whitespace from both ends.
(`Char.isWhitespace` covers space, tab, CR and LF; Rust's
`char::is_whitespace` additionally strips exotic Unicode whitespace, which
none of the verified properties depend on.) -/
def trimChars (l : List Char) : List Char :=
  ((l.dropWhile Char.isWhitespace).reverse.dropWhile Char.isWhitespace).reverse

/-- Rust `str::trim` as a `String → String`. -/
def rustTrim (s : String) : String := String.mk (trimChars s.data)

/-! ## `parse_source_and_deps` (src/src/plrust.rs lines 576-606) -/

/-- Strip one trailing `'\r'`, as Rust `str::lines` does on each line. -/
def stripTrailingCR (l : List Char) : List Char :=
  if l.getLast? = some '\r' then l.dropLast else l

/-- Rust `str::lines` on an already-trimmed string: split on `'\n'` and strip
one trailing `'\r'` from each line; the empty string yields no lines.
(`parse_source_and_deps` only applies this to `code.trim()`, which never ends
with a newline, so the "no trailing empty line" rule of `str::lines` is
covered by the empty-string case.) -/
def rustLines (s : String) : List String :=
  if s.data = [] then []
  else (splitChar '\n' s.data).map (fun l => String.mk (stripTrailingCR l))

/-- The loop state of `parse_source_and_deps`: the two section flags, the two
accumulated fragments, and a flag recording whether the
`panic!("unexpected pl/rust code state")` branch was reached. -/
structure SplitState where
  in_deps : Bool
  in_code : Bool
  deps : String
  code : String
  panicked : Bool
  deriving Repr, DecidableEq

/-- One iteration of the `for line in code.trim().lines()` loop of
`parse_source_and_deps`. -/
def processLine (st : SplitState) (line : String) : SplitState :=
  let trimmed_line := rustTrim line
  if trimmed_line = "[dependencies]" then
    { st with in_deps := true, in_code := false }
  else if trimmed_line = "[code]" then
    { st with in_deps := false, in_code := true }
  else if st.in_deps then
    { st with deps := st.deps ++ line ++ "\n" }
  else if st.in_code then
    { st with code := st.code ++ line ++ "\n" }
  else
    { st with panicked := true }

/-- `parse_source_and_deps`: fold the loop over the lines of the trimmed
source, starting with `in_deps = false`, `in_code = true` and empty
fragments.  The function's Rust return value is the pair
`(deps_block, code_block)` of the final state. -/
def parse_source_and_deps (code : String) : SplitState :=
  (rustLines (rustTrim code)).foldl processLine
    { in_deps := false, in_code := true, deps := "", code := "", panicked := false }

/-- Marker classification used by the specification-side splitter:
`some true` after a `[dependencies]` marker, `some false` after a `[code]`
marker, `none` before any marker. -/
def lineMarker (line : String) : Option Bool :=
  if rustTrim line = "[dependencies]" then some true
  else if rustTrim line = "[code]" then some false
  else none

/-- Specification-side splitter, written from the spec's words: each
non-marker line belongs to the section named by the most recent marker line
before it; lines before the first marker belong to the code section. -/
def specSplit (lines : List String) (lastMarker : Option Bool) : String × String :=
  match lines with
  | [] => ("", "")
  | l :: rest =>
    match lineMarker l with
    | some m => specSplit rest (some m)
    | none =>
      if lastMarker = some true then
        (l ++ "\n" ++ (specSplit rest lastMarker).1, (specSplit rest lastMarker).2)
      else
        ((specSplit rest lastMarker).1, l ++ "\n" ++ (specSplit rest lastMarker).2)

/-! ## Target resolution (src/plrust/src/target.rs) -/

/-- The state of the `PLRUST_TARGET` environment variable, mirroring the three
outcomes of `std::env::var`: present with a UTF-8 value, not present, or
present but not valid Unicode (the raw `OsString` bytes are carried). -/
inductive EnvVar where
  | present (v : String)
  | notPresent
  | notUnicode (bytes : List Nat)
  deriving Repr, DecidableEq

/-- `TargetErr` from target.rs: unsupported target tuple, or a non-UTF-8
target-tuple specifier (carrying the offending bytes). -/
inductive TargetErr where
  | Unsupported
  | InvalidSpec (bytes : List Nat)
  deriving Repr, DecidableEq

/-- The closure body of the `TARGET_TUPLE` `Lazy` cell in `target::tuple`:
an explicit `PLRUST_TARGET` value wins; otherwise the platform-detected host
tuple is used when the compile-time platform configuration supports it
(`supported` models the `cfg_if` branches: it is false exactly for a
`target_postgrestd` build on a platform other than x86_64/aarch64 linux-gnu),
else `TargetErr::Unsupported`; a non-Unicode value is `TargetErr::InvalidSpec`. -/
def resolveTargetTuple (supported : Bool) (hostTuple : String) (env : EnvVar) :
    Except TargetErr String :=
  match env with
  | .present v => .ok v
  | .notPresent => if supported then .ok hostTuple else .error .Unsupported
  | .notUnicode s => .error (.InvalidSpec s)

/-- `target::tuple`: the process-wide `Lazy<Result<CompilationTarget, TargetErr>>`
is modelled as explicit memo state.  `none` means the `Lazy` cell has not yet
been forced; on first force the closure's result — whatever it is — is stored,
and every later call returns the stored result.  The function returns the
pair (result returned to the caller, memo state after the call). -/
def targetTuple (memo : Option (Except TargetErr String)) (supported : Bool)
    (hostTuple : String) (env : EnvVar) :
    Except TargetErr String × Option (Except TargetErr String) :=
  match memo with
  | some r => (r, some r)
  | none =>
    let r := resolveTargetTuple supported hostTuple env
    (r, some r)

/-! ## Lint and target configuration (src/plrust/src/gucs.rs) -/

/-- `BUILTIN_LINTS` from gucs.rs: the default value of both
`plrust.compile_lints` and `plrust.required_lints`. -/
def BUILTIN_LINTS : String :=
  "plrust_extern_blocks, plrust_lifetime_parameterized_traits, implied_bounds_entailment, unsafe_code, unknown_lints"

/-- The individual lint names of a comma-separated lint list such as
`BUILTIN_LINTS`. -/
def lintNames (s : String) : List String :=
  (splitChar ',' s.data).map (fun l => String.mk (trimChars l))

/-- A configured cross-compilation architecture.  Modelled from the spec:
the type `CrossCompilationTarget` is imported by gucs.rs from `crate::target`
but its definition is not among the provided sources; the
`plrust.compilation_targets` GUC help text says "Supported values are:
x86_64, aarch64". -/
inductive CrossCompilationTarget where
  | x86_64
  | aarch64
  deriving Repr, DecidableEq

/-- The architecture name of a cross-compilation target, as it appears in the
`plrust.compilation_targets` list. -/
def cctArch : CrossCompilationTarget → String
  | .x86_64 => "x86_64"
  | .aarch64 => "aarch64"

/-- Modelled from the spec: `TryFrom<&str> for CrossCompilationTarget`
(the `s.try_into()` call in `compilation_targets`), accepting exactly the
supported architecture names. -/
def cctTryFrom (s : String) : Except TargetErr CrossCompilationTarget :=
  if s = "x86_64" then .ok .x86_64
  else if s = "aarch64" then .ok .aarch64
  else .error .Unsupported

/-- Rust's `Iterator::collect::<Result<Vec<CrossCompilationTarget>, TargetErr>>`:
convert each entry in order, stopping at the first error. -/
def collectTargets (l : List String) :
    Except TargetErr (List CrossCompilationTarget) :=
  match l with
  | [] => .ok []
  | s :: rest =>
    match cctTryFrom s with
    | .error e => .error e
    | .ok t =>
      match collectTargets rest with
      | .error e => .error e
      | .ok ts => .ok (t :: ts)

/-- `gucs::compilation_targets`: resolve the host tuple via `target::tuple`
(here passed in as `hostRes`, its already-memoized result), then parse the
`plrust.compilation_targets` GUC (`guc`): split on commas, trim each entry,
drop entries equal to this process's `std::env::consts::ARCH` (`arch`), and
convert each survivor with `try_into`, collecting into a list or the first
conversion error. -/
def compilation_targets (hostRes : Except TargetErr String) (guc : Option String)
    (arch : String) : Except TargetErr (String × List CrossCompilationTarget) :=
  match hostRes with
  | .error e => .error e
  | .ok this_target =>
    match guc with
    | none => .ok (this_target, [])
    | some targets =>
      match collectTargets
          ((((splitChar ',' targets.data).map (fun l => String.mk (trimChars l))).filter
            (fun s => s ≠ arch)) : List String) with
      | .error e => .error e
      | .ok other_targets => .ok (this_target, other_targets)

/-! ## Semantic types (pgx `PgOid` / `PgBuiltInOids`) and wasm value types -/

/-- The members of pgx's `PgBuiltInOids` enum that the sources name, plus
`other`, which stands for every remaining member; every `match` in the
sources sends all of those to its wildcard arm, so one constructor suffices. -/
inductive PgBuiltInOids where
  | ANYELEMENTOID
  | BOOLOID
  | BYTEAOID
  | CHAROID
  | CSTRINGOID
  | FLOAT4OID
  | FLOAT8OID
  | INETOID
  | INT2OID
  | INT4OID
  | INT8OID
  | JSONBOID
  | JSONOID
  | NUMERICOID
  | OIDOID
  | TEXTOID
  | TIDOID
  | VARCHAROID
  | VOIDOID
  | other (code : Nat)
  deriving Repr, DecidableEq

/-- pgx's `PgOid`. -/
inductive PgOid where
  | InvalidOid
  | Custom (oid : Nat)
  | BuiltIn (b : PgBuiltInOids)
  deriving Repr, DecidableEq

/-- `wasmtime::ValType`. -/
inductive ValType where
  | I32
  | I64
  | F32
  | F64
  | V128
  | FuncRef
  | ExternRef
  deriving Repr, DecidableEq

/-- A reached `todo!()` / `unimplemented!()` / `.expect` panic in the Rust
sources; the embedding surfaces these as errors instead of partiality. -/
inductive RsPanic where
  | todo
  | unimplemented
  | unwrapNone
  deriving Repr, DecidableEq

/-- `oid_to_valtype` (plrust.rs lines 620-630): `INT4OID ↦ I32`,
`INT8OID ↦ I64`, every other built-in `↦ None`; `InvalidOid` and `Custom`
hit `todo!()`. -/
def oid_to_valtype (oid : PgOid) : Except RsPanic (Option ValType) :=
  match oid with
  | .InvalidOid => .error .todo
  | .Custom _ => .error .todo
  | .BuiltIn builtin =>
    match builtin with
    | .INT4OID => .ok (some .I32)
    | .INT8OID => .ok (some .I64)
    | _ => .ok none

/-- `oid_to_valtype_and_ptr_marker` (plrust.rs lines 609-617): primitives keep
their valtype with marker `false`; every other type becomes `(I64, true)`,
i.e. an encoded value passed through a 64-bit pointer. -/
def oid_to_valtype_and_ptr_marker (oid : PgOid) : Except RsPanic (ValType × Bool) :=
  match oid_to_valtype oid with
  | .error e => .error e
  | .ok (some valtype) => .ok (valtype, false)
  | .ok none => .ok (.I64, true)

/-- The concrete Rust types that the generator can mention (a shallow model
of `syn::Type`). -/
inductive SynType where
  | i32T
  | i64T
  | u64T
  | u8T
  | i16T
  | f32T
  | f64T
  | boolT
  | stringT
  | strRefT
  | byteaOwnedT
  | byteaRefT
  | cstrT
  | inetT
  | jsonbT
  | jsonT
  | numericT
  | oidT
  | itemPointerT
  | unitT
  | anyElementT
  | vecOptionT (t : SynType)
  | arrayT (t : SynType)
  deriving Repr, DecidableEq

/-- `valtype_to_syn_type` (plrust.rs lines 632-642): `I32 ↦ i32`,
`I64 ↦ i64`; all other valtypes hit `todo!()`. -/
def valtype_to_syn_type (valtype : ValType) : Except RsPanic (Option SynType) :=
  match valtype with
  | .I32 => .ok (some .i32T)
  | .I64 => .ok (some .i64T)
  | _ => .error .todo

/-- `oid_to_syn_type` (plrust.rs lines 644-689).  The catalog lookup
`pg_sys::get_element_type` is external; it is passed in as `getElementType`
(`none` models `InvalidOid`, i.e. "not an array type"). -/
def oid_to_syn_type (getElementType : PgOid → Option PgOid) (type_oid : PgOid)
    (owned : Bool) : Option SynType :=
  let (base_oid, array) :=
    match getElementType type_oid with
    | some elem => (elem, true)
    | none => (type_oid, false)
  let base_rust_type : Option SynType :=
    match base_oid with
    | .BuiltIn builtin =>
      match builtin with
      | .ANYELEMENTOID => some .anyElementT
      | .BOOLOID => some .boolT
      | .BYTEAOID => some (if owned then .byteaOwnedT else .byteaRefT)
      | .CHAROID => some .u8T
      | .CSTRINGOID => some .cstrT
      | .FLOAT4OID => some .f32T
      | .FLOAT8OID => some .f64T
      | .INETOID => some .inetT
      | .INT2OID => some .i16T
      | .INT4OID => some .i32T
      | .INT8OID => some .i64T
      | .JSONBOID => some .jsonbT
      | .JSONOID => some .jsonT
      | .NUMERICOID => some .numericT
      | .OIDOID => some .oidT
      | .TEXTOID => some (if owned then .stringT else .strRefT)
      | .TIDOID => some .itemPointerT
      | .VARCHAROID => some (if owned then .stringT else .strRefT)
      | .VOIDOID => some .unitT
      | .other _ => none
    | _ => none
  match base_rust_type with
  | none => none
  | some base =>
    if array && owned then some (.vecOptionT base)
    else if array then some (.arrayT base)
    else some base

/-! ## Code generation (`generate_function_source`, plrust.rs lines 379-479) -/

/-- How an argument of the generated `entry` function is forwarded to the
user wrapper function: passed through unchanged, or deserialized from the
pointer handle via `plrust_interface::own_unpack_and_deserialize`. -/
inductive ArgTransform where
  | direct
  | deserializeFromPtr
  deriving Repr, DecidableEq

/-- How the user wrapper's return value becomes the `entry` return value:
passed through unchanged, or serialized, length-prefixed, leaked into guest
memory and returned as a `u64` handle
(`plrust_interface::serialize_pack_and_leak`). -/
inductive RetTransform where
  | direct
  | serializeToPtr
  deriving Repr, DecidableEq

/-- The per-argument computation of the entry-function loop (plrust.rs lines
423-448): a primitive argument keeps its valtype's concrete type and is
passed directly; any other argument is declared `u64` and deserialized from
the pointer. -/
def entry_arg_sig (arg_type_oid : PgOid) : Except RsPanic (SynType × ArgTransform) :=
  match oid_to_valtype arg_type_oid with
  | .error e => .error e
  | .ok (some valtype) =>
    match valtype_to_syn_type valtype with
    | .error e => .error e
    | .ok none => .error .unwrapNone
    | .ok (some ty) => .ok (ty, .direct)
  | .ok none => .ok (.u64T, .deserializeFromPtr)

/-- The entry-function return computation (plrust.rs lines 449-465): a
primitive return keeps its valtype's concrete type and `retval` is returned
directly; any other return type is declared `u64` and `retval` is serialized,
packed and leaked. -/
def entry_ret_sig (return_type : PgOid) : Except RsPanic (SynType × RetTransform) :=
  match oid_to_valtype return_type with
  | .error e => .error e
  | .ok (some valtype) =>
    match valtype_to_syn_type valtype with
    | .error e => .error e
    | .ok none => .error .unwrapNone
    | .ok (some ty) => .ok (ty, .direct)
  | .ok none => .ok (.u64T, .serializeToPtr)

/-- The generated user wrapper function. -/
structure UserFn where
  attrs : List String
  name : String
  args : List (String × SynType)
  ret : Option SynType
  body : String
  deriving Repr, DecidableEq

/-- The generated `entry` function. -/
structure EntryFn where
  attrs : List String
  args : List (String × SynType)
  ret : SynType
  argTransforms : List ArgTransform
  retTransform : RetTransform
  deriving Repr, DecidableEq

/-- The generated compilation unit, mirroring the `syn::File` built by
`generate_function_source`: its file-level attribute list and its two items. -/
structure GeneratedFile where
  fileAttrs : List String
  userFn : UserFn
  entryFn : EntryFn
  deriving Repr, DecidableEq

/-- The argument identifier chosen by the generator: the declared name when
present and non-empty, else `arg<idx>` (plrust.rs lines 400-403). -/
def genArgName (arg_idx : Nat) (arg_name : Option String) : String :=
  match arg_name with
  | some name => if name.length > 0 then name else "arg" ++ toString arg_idx
  | none => "arg" ++ toString arg_idx

/-- `generate_function_source`.  It produces a `syn::File` with an *empty*
file-attribute list (`attrs: Default::default()`) holding exactly two items:
the user wrapper `plrust_fn_<oid>` (typed via `oid_to_syn_type` with
`owned = true`; a `None` from `oid_to_syn_type` is `.unwrap()`ed for
arguments, while the *return* type keeps the `Option`), and the `#[no_mangle]
fn entry` whose signature is computed by `entry_arg_sig` / `entry_ret_sig`.
`is_set` and `is_strict` are parameters of the Rust function but are unused
by its body.  Ident/code parsing by `syn::parse_str` is not modelled (only
panics on malformed idents or code, never any policy check). -/
def generate_function_source (getElementType : PgOid → Option PgOid)
    (fn_oid : Nat) (code : String) (args : List (PgOid × Option String))
    (return_type : PgOid) (is_set is_strict : Bool) :
    Except RsPanic GeneratedFile := do
  let _ := is_set
  let _ := is_strict
  let user_fn_name := "plrust_fn_" ++ toString fn_oid
  let user_fn_args ←
    (args.enum.mapM
      (fun p =>
        match oid_to_syn_type getElementType p.2.1 true with
        | none => Except.error RsPanic.unwrapNone
        | some arg_ty => Except.ok (genArgName p.1 p.2.2, arg_ty)) :
      Except RsPanic (List (String × SynType)))
  let user_fn_return := oid_to_syn_type getElementType return_type true
  let entry_args ←
    (args.enum.mapM
      (fun p => do
        let (ty, transform) ← entry_arg_sig p.2.1
        Except.ok ((genArgName p.1 p.2.2, ty), transform)) :
      Except RsPanic (List ((String × SynType) × ArgTransform)))
  let (entry_ret_ty, entry_ret_transform) ← entry_ret_sig return_type
  Except.ok
    { fileAttrs := []
      userFn :=
        { attrs := []
          name := user_fn_name
          args := user_fn_args
          ret := user_fn_return
          body := code }
      entryFn :=
        { attrs := ["no_mangle"]
          args := entry_args.map Prod.fst
          ret := entry_ret_ty
          argTransforms := entry_args.map Prod.snd
          retTransform := entry_ret_transform } }

/-! ## Crate creation and compilation (`create_function_crate`,
`compile_function`, plrust.rs lines 249-346) -/

/-- The `Cargo.toml` text written by `create_function_crate` (plrust.rs lines
313-325): the literal template with the crate name, the interface-crate path
and the raw dependency fragment substituted in.  The dependency fragment is
inserted verbatim; nothing filters or validates it. -/
def cargoTomlContent (crate_name interface_crate_path dependencies : String) : String :=
  "[package]\nname = \"" ++ crate_name ++ "\"\nversion = \"0.0.0\"\nedition = \"2021\"\n\n[lib]\ncrate-type = [\"cdylib\"]\n\n[dependencies]\nplrust_interface = \x7b path = \"" ++ interface_crate_path ++ "\" \x7d\n" ++ dependencies ++ "\n"

/-- The externally visible steps of the wasm build pipeline, in order. -/
inductive BuildAction where
  | writeCargoToml (content : String)
  | writeLibRs (content : String)
  | runCargo (args : List String)
  | renameModule (finalName : String)
  deriving Repr, DecidableEq

/-- The argument list of the `cargo` invocation in `compile_function`. -/
def cargo_build_args : List String := ["build", "--target", "wasm32-wasi", "--release"]

/-- `create_function_crate` (plrust.rs lines 302-346), as the actions it
performs.  Catalog extraction (`extract_code_and_args`) and pretty-printing
(`prettyplease::unparse`) are external; the already-split dependency fragment
and the formatted generated source are taken as inputs.  The function writes
`Cargo.toml` (via `cargoTomlContent`) and `src/lib.rs`, and nothing else: in
particular it never reads the `plrust.allowed_dependencies` configuration. -/
def create_function_crate (crate_name interface_crate_path dependencies
    source_code : String) : List BuildAction :=
  [.writeCargoToml (cargoTomlContent crate_name interface_crate_path dependencies),
   .writeLibRs source_code]

/-- Outcome of the external `cargo build` invocation plus the subsequent
`find_wasm_module` existence check. -/
structure BuildOutcome where
  success : Bool
  stdout : String
  stderr : String
  moduleFound : Bool
  deriving Repr, DecidableEq

/-- `compile_function` (plrust.rs lines 249-300): create the crate, run
`cargo build --target wasm32-wasi --release` unconditionally, concatenate the
captured stdout and stderr, then: on a failed exit status return the captured
text with a divider and the generated source appended; on success, rename the
module to `<crate_name>.wasm` when `find_wasm_module` finds it, else return
just the captured text.  The result pairs the Rust return value with the
performed actions. -/
def compile_function (crate_name interface_crate_path dependencies
    source_code : String) (outcome : BuildOutcome) :
    Except String (String × String) × List BuildAction :=
  let actions :=
    create_function_crate crate_name interface_crate_path dependencies source_code
      ++ [.runCargo cargo_build_args]
  let wasm_build_output_string := outcome.stdout ++ outcome.stderr
  if outcome.success = false then
    (.error (wasm_build_output_string ++ "-----------------\n" ++ source_code), actions)
  else if outcome.moduleFound then
    (.ok (crate_name ++ ".wasm", wasm_build_output_string),
     actions ++ [.renameModule (crate_name ++ ".wasm")])
  else
    (.error wasm_build_output_string, actions)

/-! ## Native pipeline build (`StateProvisioned::build`,
src/src/user_crate/state_provisioned.rs lines 47-115) -/

/-- One `section`/`with_section` of the error report built on build failure. -/
inductive ReportSection where
  | stdoutSection (s : String)
  | stderrSection (s : String)
  | sourceSection (s : String)
  deriving Repr, DecidableEq

/-- Errors of `StateProvisioned::build`: the `target::tuple()?` failure, or
`PlRustError::CargoBuildFail` carrying its attached report sections. -/
inductive ProvisionedBuildErr where
  | targetErr (e : TargetErr)
  | cargoBuildFail (sections : List ReportSection)
  deriving Repr, DecidableEq

/-- Outcome of the external `cargo rustc` invocation. -/
structure CargoOutput where
  success : Bool
  stdout : String
  stderr : String
  deriving Repr, DecidableEq

/-- `StateProvisioned::build`: resolve the target (the memoized
`target::tuple` result is passed in), run cargo (outcome passed in); on
success construct the deterministic output path
`<target_dir>/<target>/release/lib<crate_name><DLL_SUFFIX>` without touching
the file, and on failure return `CargoBuildFail` with the captured stdout,
stderr and the generated `src/lib.rs` text (`lib_rs`) as report sections —
the output artifact path is neither read nor constructed on that branch.
(The x86_64-macOS generation-suffix `cfg` branch renames the crate before
building the path; the suffixed name is what `crate_name` stands for there.) -/
def state_provisioned_build (targetRes : Except TargetErr String)
    (crate_name target_dir dll_suffix lib_rs : String) (output : CargoOutput) :
    Except ProvisionedBuildErr (String × CargoOutput) :=
  match targetRes with
  | .error e => .error (.targetErr e)
  | .ok target =>
    if output.success then
      .ok (target_dir ++ "/" ++ target ++ "/release/lib" ++ crate_name ++ dll_suffix,
           output)
    else
      .error (.cargoBuildFail
        [.stdoutSection output.stdout, .stderrSection output.stderr,
         .sourceSection lib_rs])

/-! ## Wasm dispatch and marshalling (`execute_wasm_function`,
`set_wasm_args`, plrust.rs lines 124-243) -/

/-- `wasmtime::Val`, carrying payloads only where the sources use them.
`ExternRefNone` is `Val::ExternRef(None)`, the placeholder `set_wasm_ret`
puts into the result buffer before the call. -/
inductive Val where
  | I32 (i : Int)
  | I64 (i : Int)
  | F32
  | F64
  | V128
  | FuncRef
  | ExternRefNone
  deriving Repr, DecidableEq

/-- A non-null call argument as `pg_getarg` can produce it for the types this
pipeline marshals: an integer datum or a text datum.  A SQL NULL argument is
`none` at the `Option ArgVal` level (`pg_getarg` returns `Option<T>`). -/
inductive ArgVal where
  | intV (i : Int)
  | textV (s : String)
  deriving Repr, DecidableEq

/-- `n` as exactly `len` little-endian bytes. -/
def natToLeBytes (n : Nat) : Nat → List Nat
  | 0 => []
  | len + 1 => n % 256 :: natToLeBytes (n / 256) len

/-- Modelled from the spec: `plrust_interface::pack_with_len` (the crate is
not among the provided sources); spec 4.7 says non-primitive arguments are
"prefixed with an 8-byte little-endian length". -/
def pack_with_len (bs : List Nat) : List Nat :=
  natToLeBytes bs.length 8 ++ bs

/-- `set_wasm_args` (plrust.rs lines 197-243) for one argument: what it
pushes onto the argument buffer.  Primitive (`ptr_marker = false`) `I32`/`I64`
arguments are fetched with `pg_getarg` and pushed by value (a NULL argument
makes the `.unwrap()` panic).  Encoded arguments (`ptr_marker = true`) are
only implemented for `TEXTOID`: the text is bincode-serialized (external,
passed in as `serializeText`), length-prefixed by `pack_with_len`, written
into guest memory at the pointer returned by the module's `guest_alloc`
export (abstracted as `alloc : size → align → ptr`), and a single
`Val::I64(guest_ptr as i64)` is pushed.  Every other encoded type hits
`todo!()`. -/
def set_wasm_args (oid : PgOid) (getarg : Option ArgVal)
    (serializeText : String → List Nat) (alloc : Nat → Nat → Nat) :
    Except RsPanic (List Val) :=
  match oid_to_valtype_and_ptr_marker oid with
  | .error e => .error e
  | .ok (valtype, false) =>
    match valtype with
    | .I32 =>
      match getarg with
      | some (.intV i) => .ok [.I32 i]
      | _ => .error .unwrapNone
    | .I64 =>
      match getarg with
      | some (.intV i) => .ok [.I64 i]
      | _ => .error .unwrapNone
    | _ => .error .todo
  | .ok (_, true) =>
    match oid with
    | .InvalidOid => .error .todo
    | .Custom _ => .error .todo
    | .BuiltIn builtin =>
      match builtin with
      | .TEXTOID =>
        match getarg with
        | some (.textV s) =>
          let bincoded := serializeText s
          let packed := pack_with_len bincoded
          let guest_ptr := alloc packed.length 8
          .ok [.I64 (u64ToI64 guest_ptr)]
        | _ => .error .unwrapNone
      | _ => .error .todo

/-- What the host turns the call result into: a raw datum word for a
primitive result, or — for an encoded result — the exact byte payload that is
handed to `plrust_interface::deserialize` (the bincode decoding itself is
external to the sources and is represented by its input bytes). -/
inductive RetResult where
  | datum (i : Int)
  | text (payload : List Nat)
  deriving Repr, DecidableEq

/-- The result handling at the end of `execute_wasm_function` (plrust.rs
lines 157-187).  The first arm catches *any* single `I64` result: for
`TEXTOID` it reads 8 bytes at the guest pointer, interprets them as a
little-endian `u64` length, reads that many bytes right after them, and
deserializes; every other oid under that arm hits `todo!()`.  The second arm
handles a remaining single primitive value; anything else is
`unimplemented!()`. -/
def handleWasmReturn (ret_oid : PgOid) (ret : List Val) (mem : Nat → Nat) :
    Except RsPanic RetResult :=
  match ret with
  | [.I64 guest_ptr] =>
    (match ret_oid with
     | .InvalidOid => .error .todo
     | .Custom _ => .error .todo
     | .BuiltIn builtin =>
       match builtin with
       | .TEXTOID =>
         let addr := i64ToUsize guest_ptr
         let length_bytes := readBytes mem addr 8
         let length := leBytesToNat length_bytes
         let returned_bytes := readBytes mem (addr + 8) length
         .ok (.text returned_bytes)
       | _ => .error .todo)
  | [primitive_value] =>
    (match primitive_value with
     | .I32 val => .ok (.datum val)
     | .I64 val => .ok (.datum val)
     | _ => .error .todo)
  | _ => .error .unimplemented

/-- The argument-marshalling loop of `execute_wasm_function` (lines 140-143):
`set_wasm_args` for each declared argument oid in order, with `pg_getarg`
reading the corresponding `fcinfo` slot. -/
def buildWasmArgs (arg_oids : List PgOid) (fcinfo : List (Option ArgVal))
    (serializeText : String → List Nat) (alloc : Nat → Nat → Nat) :
    Except RsPanic (List Val) :=
  (arg_oids.enum.mapM
      (fun p => set_wasm_args p.2 (fcinfo.getD p.1 none) serializeText alloc) :
    Except RsPanic (List (List Val))).map List.flatten

/-- `execute_wasm_function` (plrust.rs lines 124-188): marshal all arguments,
call the instantiated module's `entry` export (the module's behaviour is the
external function `callModule`, from argument vector to result vector), then
handle the result against the cached return oid over the guest memory `mem`.
If marshalling panics, the module is never called. -/
def execute_wasm_function (arg_oids : List PgOid) (ret_oid : PgOid)
    (fcinfo : List (Option ArgVal)) (serializeText : String → List Nat)
    (alloc : Nat → Nat → Nat) (callModule : List Val → Except RsPanic (List Val))
    (mem : Nat → Nat) : Except RsPanic RetResult := do
  let args ← buildWasmArgs arg_oids fcinfo serializeText alloc
  let ret ← callModule args
  handleWasmReturn ret_oid ret mem

/-- A function definition as `extract_code_and_args` reads it from the
catalog; only the fields the dispatch path could consult are kept. -/
structure WasmFnDef where
  arg_oids : List PgOid
  ret_oid : PgOid
  is_strict : Bool
  deriving Repr, DecidableEq

/-- The dispatch of a call through the wasm backend.  The process-wide
`CACHE` entry built by `initialize_cache_entry` holds only the compiled
module and the argument/return oids; `proisstrict` is read by
`extract_code_and_args` at crate-generation time only and never reaches this
path, so dispatch forwards everything but the strict flag. -/
def dispatch_wasm_call (d : WasmFnDef) (fcinfo : List (Option ArgVal))
    (serializeText : String → List Nat) (alloc : Nat → Nat → Nat)
    (callModule : List Val → Except RsPanic (List Val)) (mem : Nat → Nat) :
    Except RsPanic RetResult :=
  execute_wasm_function d.arg_oids d.ret_oid fcinfo serializeText alloc callModule mem

/-! ## Lemmas about the source splitter -/

/-- One loop iteration keeps at least one of the two section flags set and,
when one is set, does not touch the panic flag. -/
theorem processLine_or_flags (st : SplitState) (l : String)
    (h : (st.in_deps || st.in_code) = true) :
    ((processLine st l).in_deps || (processLine st l).in_code) = true ∧
      (processLine st l).panicked = st.panicked := by
  unfold processLine
  by_cases h1 : rustTrim l = "[dependencies]"
  · simp [h1]
  · by_cases h2 : rustTrim l = "[code]"
    · simp [h1, h2]
    · rcases hd : st.in_deps with _ | _
      · rcases hc : st.in_code with _ | _
        · rw [hd, hc] at h; simp at h
        · simp [h1, h2, hd, hc]
      · simp [h1, h2, hd]

/-- The split loop never reaches the panic branch and ends with a section
flag still set, provided it starts that way. -/
theorem foldl_processLine_no_panic (lines : List String) :
    ∀ st : SplitState, (st.in_deps || st.in_code) = true → st.panicked = false →
      (lines.foldl processLine st).panicked = false ∧
        ((lines.foldl processLine st).in_deps ||
          (lines.foldl processLine st).in_code) = true := by
  induction lines with
  | nil => intro st h hp; exact ⟨hp, h⟩
  | cons l rest ih =>
    intro st h hp
    have h1 := processLine_or_flags st l h
    exact ih (processLine st l) h1.1 (h1.2.trans hp)

/-- Unfolding step of the specification splitter on a nonempty line list. -/
theorem specSplit_cons (l : String) (rest : List String) (m : Option Bool) :
    specSplit (l :: rest) m =
      match lineMarker l with
      | some m' => specSplit rest (some m')
      | none =>
        if m = some true then
          (l ++ "\n" ++ (specSplit rest m).1, (specSplit rest m).2)
        else
          ((specSplit rest m).1, l ++ "\n" ++ (specSplit rest m).2) := by
  rfl

/-- Before any marker the specification splitter behaves exactly as after a
`[code]` marker. -/
theorem specSplit_none_eq (lines : List String) :
    specSplit lines none = specSplit lines (some false) := by
  induction lines with
  | nil => rfl
  | cons l rest ih =>
    rw [specSplit_cons, specSplit_cons]
    cases hm : lineMarker l with
    | some m => simp
    | none => simp [ih]

/-- The split loop, started in the region named by `b` (`true` = the
dependency section) with fragments `d`, `c` already accumulated, extends them
with exactly the lines the marker-based specification assigns to each
section. -/
theorem foldl_processLine_spec (lines : List String) :
    ∀ (b : Bool) (d c : String) (p : Bool),
      (lines.foldl processLine ⟨b, !b, d, c, p⟩).deps
          = d ++ (specSplit lines (some b)).1 ∧
        (lines.foldl processLine ⟨b, !b, d, c, p⟩).code
          = c ++ (specSplit lines (some b)).2 := by
  induction lines with
  | nil =>
    intro b d c p
    simp [specSplit, String.append_empty]
  | cons l rest ih =>
    intro b d c p
    by_cases h1 : rustTrim l = "[dependencies]"
    · have e : processLine ⟨b, !b, d, c, p⟩ l = ⟨true, !true, d, c, p⟩ := by
        simp [processLine, h1]
      have hs : specSplit (l :: rest) (some b) = specSplit rest (some true) := by
        rw [specSplit_cons]
        simp [lineMarker, h1]
      rw [List.foldl_cons, e, hs]
      exact ih true d c p
    · by_cases h2 : rustTrim l = "[code]"
      · have e : processLine ⟨b, !b, d, c, p⟩ l = ⟨false, !false, d, c, p⟩ := by
          simp [processLine, h1, h2]
        have hs : specSplit (l :: rest) (some b) = specSplit rest (some false) := by
          rw [specSplit_cons]
          simp [lineMarker, h1, h2]
        rw [List.foldl_cons, e, hs]
        exact ih false d c p
      · have hm : lineMarker l = none := by simp [lineMarker, h1, h2]
        rcases b with _ | _
        · have e : processLine ⟨false, !false, d, c, p⟩ l
              = ⟨false, !false, d, c ++ l ++ "\n", p⟩ := by
            simp [processLine, h1, h2]
          have hs : specSplit (l :: rest) (some false)
              = ((specSplit rest (some false)).1,
                  l ++ "\n" ++ (specSplit rest (some false)).2) := by
            rw [specSplit_cons]
            simp [hm]
          rw [List.foldl_cons, e, hs]
          refine ⟨(ih false d (c ++ l ++ "\n") p).1, ?_⟩
          rw [(ih false d (c ++ l ++ "\n") p).2]
          simp [String.append_assoc]
        · have e : processLine ⟨true, !true, d, c, p⟩ l
              = ⟨true, !true, d ++ l ++ "\n", c, p⟩ := by
            simp [processLine, h1, h2]
          have hs : specSplit (l :: rest) (some true)
              = (l ++ "\n" ++ (specSplit rest (some true)).1,
                  (specSplit rest (some true)).2) := by
            rw [specSplit_cons]
            simp [hm]
          rw [List.foldl_cons, e, hs]
          refine ⟨?_, (ih true (d ++ l ++ "\n") c p).2⟩
          rw [(ih true (d ++ l ++ "\n") c p).1]
          simp [String.append_assoc]

/-- C6: for every stored source text, the splitter assigns lines after a
`[dependencies]` marker to the dependency fragment and lines after a `[code]`
marker to the code fragment — each line belongs to the section named by the
most recent marker before it, so the two sections may appear in either order
and may alternate — and every content line before the first marker goes to
the code fragment (`specSplit` with `none` is the marker-based specification
stated exactly that way). -/
theorem parse_source_and_deps_matches_marker_spec (code : String) :
    (parse_source_and_deps code).deps = (specSplit (rustLines (rustTrim code)) none).1 ∧
      (parse_source_and_deps code).code = (specSplit (rustLines (rustTrim code)) none).2 := by
  have h := foldl_processLine_spec (rustLines (rustTrim code)) false "" "" false
  rw [specSplit_none_eq]
  simpa [parse_source_and_deps, String.empty_append] using h

/-- C9: the splitter never reaches the `panic!("unexpected pl/rust code
state")` branch: `in_code` starts `true`, each marker line sets exactly one
of the two flags, so `in_deps` and `in_code` are never simultaneously false
and splitting always produces its (dependencies, code) pair. -/
theorem parse_source_and_deps_never_panics (code : String) :
    (parse_source_and_deps code).panicked = false := by
  have h := foldl_processLine_no_panic (rustLines (rustTrim code))
    { in_deps := false, in_code := true, deps := "", code := "", panicked := false }
    (by simp) rfl
  exact h.1

/-! ## Target memoization (claim C4) and host-target filtering (claim C8) -/

/-- C4 counterexample: a failed resolution IS cached.  The first call forces
the `Lazy` cell with a non-UTF-8 `PLRUST_TARGET`, producing
`InvalidSpec`; the second call, although its environment now carries a valid
target string whose fresh resolution would succeed, still returns the cached
failure.  This refutes the claim that a resolution failure is not cached and
may be retried. -/
theorem targetTuple_caches_failure_cex :
    (targetTuple none true "x86_64-unknown-linux-gnu" (.notUnicode [255])).1
        = .error (.InvalidSpec [255]) ∧
      (targetTuple
          (targetTuple none true "x86_64-unknown-linux-gnu" (.notUnicode [255])).2
          true "x86_64-unknown-linux-gnu" (.present "aarch64-unknown-linux-gnu")).1
        = .error (.InvalidSpec [255]) ∧
      resolveTargetTuple true "x86_64-unknown-linux-gnu"
          (.present "aarch64-unknown-linux-gnu")
        = .ok "aarch64-unknown-linux-gnu" :=
  ⟨rfl, rfl, rfl⟩

/-- C4 (amended): host-target resolution is memoized exactly once per process
on the first call, success or failure alike: whatever the first forcing of
the `Lazy` cell produced — including a failure — is returned unchanged by
every subsequent call, regardless of the later environment; the first call
itself returns the pure resolution of its environment. -/
theorem targetTuple_memoizes_first_result (s₁ s₂ : Bool) (h₁ h₂ : String)
    (e₁ e₂ : EnvVar) :
    (targetTuple (targetTuple none s₁ h₁ e₁).2 s₂ h₂ e₂).1
        = (targetTuple none s₁ h₁ e₁).1 ∧
      (targetTuple none s₁ h₁ e₁).1 = resolveTargetTuple s₁ h₁ e₁ :=
  ⟨rfl, rfl⟩

/-- A successful `try_into` conversion preserves the architecture name. -/
theorem cct_arch_of_tryFrom {s : String} {t : CrossCompilationTarget}
    (h : cctTryFrom s = .ok t) : cctArch t = s := by
  unfold cctTryFrom at h
  split_ifs at h with h1 h2
  · cases h; simpa [cctArch] using h1.symm
  · cases h; simpa [cctArch] using h2.symm

/-- Every target in a successfully collected list comes from some entry of
the input list. -/
theorem collectTargets_mem {l : List String} {ts : List CrossCompilationTarget}
    (h : collectTargets l = .ok ts) : ∀ t ∈ ts, ∃ s ∈ l, cctTryFrom s = .ok t := by
  induction l generalizing ts with
  | nil =>
    intro t ht
    unfold collectTargets at h
    cases h
    simp at ht
  | cons s rest ih =>
    intro t ht
    unfold collectTargets at h
    cases hc : cctTryFrom s with
    | error e => rw [hc] at h; cases h
    | ok t0 =>
      rw [hc] at h
      cases hr : collectTargets rest with
      | error e => rw [hr] at h; cases h
      | ok ts0 =>
        rw [hr] at h
        cases h
        rcases List.mem_cons.1 ht with h1 | h2
        · cases h1; exact ⟨s, List.mem_cons_self s rest, hc⟩
        · obtain ⟨s', hs', hok⟩ := ih hr t h2
          exact ⟨s', List.mem_cons_of_mem s hs', hok⟩

/-- C8: the foreign targets returned by `compilation_targets` never include
the host: every comma-separated entry that (after trimming) equals the
running process's architecture is filtered out, so no returned
cross-compilation target carries the host architecture. -/
theorem compilation_targets_excludes_host (hostRes : Except TargetErr String)
    (guc : Option String) (arch host : String) (ts : List CrossCompilationTarget)
    (h : compilation_targets hostRes guc arch = .ok (host, ts)) :
    ∀ t ∈ ts, cctArch t ≠ arch := by
  intro t ht
  cases hostRes with
  | error e => simp [compilation_targets] at h
  | ok this_target =>
    cases guc with
    | none =>
      simp only [compilation_targets] at h
      cases h
      simp at ht
    | some targets =>
      simp only [compilation_targets] at h
      cases hm : collectTargets
          ((((splitChar ',' targets.data).map (fun l => String.mk (trimChars l))).filter
            (fun s => s ≠ arch)) : List String) with
      | error e => rw [hm] at h; cases h
      | ok ts0 =>
        rw [hm] at h
        cases h
        obtain ⟨s, hs, hok⟩ := collectTargets_mem hm t ht
        rw [cct_arch_of_tryFrom hok]
        have := (List.mem_filter.1 hs).2
        simpa using this

/-- C8 witness: with the GUC set to `"x86_64, aarch64"` on an x86_64 host,
resolution returns exactly the aarch64 target, and the theorem applies to it. -/
theorem compilation_targets_excludes_host_witness :
    compilation_targets (.ok "x86_64-unknown-linux-gnu") (some "x86_64, aarch64")
        "x86_64" = .ok ("x86_64-unknown-linux-gnu", [.aarch64]) ∧
      cctArch .aarch64 ≠ "x86_64" :=
  ⟨rfl,
   compilation_targets_excludes_host (.ok "x86_64-unknown-linux-gnu")
     (some "x86_64, aarch64") "x86_64" "x86_64-unknown-linux-gnu" [.aarch64]
     rfl .aarch64 (by simp)⟩

/-! ## The marshalling boundary (claims C5 and C10) -/

/-- The little-endian value of the eight bytes at `a`, written out byte by
byte. -/
theorem leBytesToNat_readBytes_eight (mem : Nat → Nat) (a : Nat) :
    leBytesToNat ((List.range 8).map (fun i => readByte mem (a + i)))
      = readByte mem a + 256 * readByte mem (a + 1)
        + 256 ^ 2 * readByte mem (a + 2) + 256 ^ 3 * readByte mem (a + 3)
        + 256 ^ 4 * readByte mem (a + 4) + 256 ^ 5 * readByte mem (a + 5)
        + 256 ^ 6 * readByte mem (a + 6) + 256 ^ 7 * readByte mem (a + 7) := by
  simp [List.range_succ, leBytesToNat]
  ring

/-- C5: for the non-primitive (encoded) return type the backend recognizes —
`TEXT`, the only oid whose result arrives as a pointer handle and is not a
fatal `todo!()` — the host reads exactly the 8 bytes at the guest-returned
pointer, interprets them as a little-endian 64-bit length `n`, reads exactly
the `n` bytes starting immediately after that length prefix, and hands
exactly those bytes to deserialization; every other oid whose result arrives
as a single `I64` is a fatal mapping error that reads nothing. -/
theorem handleWasmReturn_length_prefixed (b : PgBuiltInOids) (guest_ptr : Int)
    (mem : Nat → Nat) :
    handleWasmReturn (.BuiltIn b) [.I64 guest_ptr] mem
      = if b = .TEXTOID then
          .ok (.text ((List.range
              (readByte mem (i64ToUsize guest_ptr)
                + 256 * readByte mem (i64ToUsize guest_ptr + 1)
                + 256 ^ 2 * readByte mem (i64ToUsize guest_ptr + 2)
                + 256 ^ 3 * readByte mem (i64ToUsize guest_ptr + 3)
                + 256 ^ 4 * readByte mem (i64ToUsize guest_ptr + 4)
                + 256 ^ 5 * readByte mem (i64ToUsize guest_ptr + 5)
                + 256 ^ 6 * readByte mem (i64ToUsize guest_ptr + 6)
                + 256 ^ 7 * readByte mem (i64ToUsize guest_ptr + 7))).map
            (fun j => readByte mem (i64ToUsize guest_ptr + 8 + j))))
        else .error .todo := by
  by_cases hb : b = .TEXTOID
  · subst hb
    have hlen := leBytesToNat_readBytes_eight mem (i64ToUsize guest_ptr)
    simp [handleWasmReturn, readBytes, hlen]
  · rw [if_neg hb]
    cases b <;> first | rfl | exact absurd rfl hb

/-- C10: the primitive/encoded boundary is exactly the pair INT4/INT8.  For
every built-in oid: `oid_to_valtype` yields a by-value machine word iff the
oid is INT4 or INT8; `oid_to_valtype_and_ptr_marker` marks exactly the others
as a 64-bit pointer; the generated entry signature takes `i32`/`i64` by value
for INT4/INT8 and a deserialized `u64` handle for everything else, and
returns likewise; and whenever host-side argument dispatch succeeds for an
oid other than INT4/INT8, what it pushed is a single 64-bit pointer handle. -/
theorem primitive_boundary_is_int4_int8 (b : PgBuiltInOids) :
    oid_to_valtype (.BuiltIn b)
        = .ok (if b = .INT4OID then some .I32
               else if b = .INT8OID then some .I64 else none) ∧
      oid_to_valtype_and_ptr_marker (.BuiltIn b)
        = .ok (if b = .INT4OID then (.I32, false)
               else if b = .INT8OID then (.I64, false) else (.I64, true)) ∧
      entry_arg_sig (.BuiltIn b)
        = .ok (if b = .INT4OID then (.i32T, .direct)
               else if b = .INT8OID then (.i64T, .direct)
               else (.u64T, .deserializeFromPtr)) ∧
      entry_ret_sig (.BuiltIn b)
        = .ok (if b = .INT4OID then (.i32T, .direct)
               else if b = .INT8OID then (.i64T, .direct)
               else (.u64T, .serializeToPtr)) ∧
      ∀ (getarg : Option ArgVal) (ser : String → List Nat)
        (alloc : Nat → Nat → Nat) (vals : List Val),
        set_wasm_args (.BuiltIn b) getarg ser alloc = .ok vals →
        b ≠ .INT4OID → b ≠ .INT8OID → ∃ p, vals = [.I64 p] := by
  cases b
  case INT4OID =>
    refine ⟨rfl, rfl, rfl, rfl, ?_⟩
    intro getarg ser alloc vals h h4 h8
    exact absurd rfl h4
  case INT8OID =>
    refine ⟨rfl, rfl, rfl, rfl, ?_⟩
    intro getarg ser alloc vals h h4 h8
    exact absurd rfl h8
  case TEXTOID =>
    refine ⟨rfl, rfl, rfl, rfl, ?_⟩
    intro getarg ser alloc vals h h4 h8
    rcases getarg with _ | a
    · simp [set_wasm_args, oid_to_valtype_and_ptr_marker, oid_to_valtype] at h
    · rcases a with i | s
      · simp [set_wasm_args, oid_to_valtype_and_ptr_marker, oid_to_valtype] at h
      · refine ⟨u64ToI64 (alloc (pack_with_len (ser s)).length 8), ?_⟩
        simp [set_wasm_args, oid_to_valtype_and_ptr_marker, oid_to_valtype] at h
        exact h.symm
  all_goals
    refine ⟨rfl, rfl, rfl, rfl, ?_⟩
  all_goals
    intro getarg ser alloc vals h h4 h8
  all_goals
    simp [set_wasm_args, oid_to_valtype_and_ptr_marker, oid_to_valtype] at h

/-- C10 witness: for `TEXT` (an oid other than INT4/INT8), a successful
dispatch with concrete serializer and allocator indeed pushed a single
64-bit pointer handle. -/
theorem primitive_boundary_witness :
    ∃ p, [Val.I64 (u64ToI64 1000)] = [Val.I64 p] :=
  (primitive_boundary_is_int4_int8 .TEXTOID).2.2.2.2 (some (.textV "hi"))
    (fun _ => [104, 105]) (fun _ _ => 1000) [.I64 (u64ToI64 1000)] rfl
    (by decide) (by decide)

/-! ## Strictness and dispatch (claim C3) -/

/-- C3 counterexample: a strict single-INT4-argument definition invoked with
a NULL argument does not produce a null/absent result — the dispatcher has no
null-returning path at all: argument marshalling panics on
`pg_getarg(...).unwrap()` of `None`, exactly as it does for the same
definition with the strict flag clear, and no `.ok` result of any kind is
produced. -/
theorem strict_null_short_circuit_cex :
    dispatch_wasm_call ⟨[.BuiltIn .INT4OID], .BuiltIn .INT4OID, true⟩ [none]
        (fun _ => []) (fun _ _ => 0) (fun _ => .ok [.I32 7]) (fun _ => 0)
      = .error .unwrapNone ∧
      dispatch_wasm_call ⟨[.BuiltIn .INT4OID], .BuiltIn .INT4OID, false⟩ [none]
        (fun _ => []) (fun _ _ => 0) (fun _ => .ok [.I32 7]) (fun _ => 0)
      = .error .unwrapNone ∧
      ∀ r : RetResult,
        dispatch_wasm_call ⟨[.BuiltIn .INT4OID], .BuiltIn .INT4OID, true⟩ [none]
          (fun _ => []) (fun _ _ => 0) (fun _ => .ok [.I32 7]) (fun _ => 0)
        ≠ .ok r :=
  ⟨rfl, rfl, fun _ h => Except.noConfusion h⟩

/-- C3 (amended): the dispatcher never consults the strict flag (the cache
entry feeding a call holds only the module and the argument/return oids), and
when argument marshalling fails — in particular when a required argument is
the NULL sentinel — the dispatch returns that marshalling error without
invoking the artifact: the outcome is identical for any two strict flags and
any two module behaviours. -/
theorem dispatch_ignores_strict_and_errors_on_null (arg_oids : List PgOid)
    (ret_oid : PgOid) (s₁ s₂ : Bool) (fcinfo : List (Option ArgVal))
    (ser : String → List Nat) (alloc : Nat → Nat → Nat)
    (f g : List Val → Except RsPanic (List Val)) (mem₁ mem₂ : Nat → Nat)
    (e : RsPanic) (h : buildWasmArgs arg_oids fcinfo ser alloc = .error e) :
    dispatch_wasm_call ⟨arg_oids, ret_oid, s₁⟩ fcinfo ser alloc f mem₁
        = .error e ∧
      dispatch_wasm_call ⟨arg_oids, ret_oid, s₂⟩ fcinfo ser alloc g mem₂
        = .error e := by
  constructor <;>
    simp [dispatch_wasm_call, execute_wasm_function, h, Bind.bind, Except.bind]

/-- C3 witness: a strict INT8-argument definition with a NULL argument
satisfies the marshalling-failure hypothesis, and both dispatches (strict and
non-strict, with different module behaviours) return that error. -/
theorem dispatch_ignores_strict_witness :
    dispatch_wasm_call ⟨[.BuiltIn .INT8OID], .BuiltIn .INT8OID, true⟩ [none]
        (fun _ => []) (fun _ _ => 0) (fun _ => .ok [.I64 5]) (fun _ => 0)
      = .error .unwrapNone ∧
      dispatch_wasm_call ⟨[.BuiltIn .INT8OID], .BuiltIn .INT8OID, false⟩ [none]
        (fun _ => []) (fun _ _ => 0) (fun _ => .error .todo) (fun _ => 1)
      = .error .unwrapNone :=
  dispatch_ignores_strict_and_errors_on_null [.BuiltIn .INT8OID]
    (.BuiltIn .INT8OID) true false [none] (fun _ => []) (fun _ _ => 0)
    (fun _ => .ok [.I64 5]) (fun _ => .error .todo) (fun _ => 0) (fun _ => 1)
    .unwrapNone rfl

/-! ## Dependency allow-listing (claim C1) -/

set_option maxRecDepth 4000 in
/-- C1: the wasm build path performs no dependency allow-list check.  A
stored source whose `[dependencies]` section names `regex = "1.0"` — a crate
outside any allow-list (the `plrust.allowed_dependencies` table is never even
read on this path) — has that line split into the dependency fragment,
embedded verbatim into the written `Cargo.toml`, and `cargo build` is invoked
for every possible build outcome: nothing rejects the request before the
toolchain process is spawned. -/
theorem build_embeds_unchecked_dependency :
    (parse_source_and_deps "[dependencies]\nregex = \"1.0\"\n[code]\n1").deps
        = "regex = \"1.0\"\n" ∧
      (∀ outcome : BuildOutcome,
        BuildAction.runCargo cargo_build_args ∈
          (compile_function "fn1_2_3" "/plrust/plrust_interface" "regex = \"1.0\"\n"
            "fn plrust_fn_3() -> i64 \x7b 1 \x7d" outcome).2) ∧
      ("regex = \"1.0\"".data <:+:
        (cargoTomlContent "fn1_2_3" "/plrust/plrust_interface"
          "regex = \"1.0\"\n").data) := by
  refine ⟨rfl, ?_, by decide⟩
  intro outcome
  unfold compile_function create_function_crate
  split_ifs <;> simp

/-! ## Lint emission (claim C2) -/

/-- C2: the generator emits no lint directives and checks nothing about the
user source.  For a definition whose source text itself contains an
`allow(unsafe_code)` directive — which disables the non-negotiable required
lint — generation succeeds anyway; the generated file's attribute list is
empty, the wrapper carries no attributes, the entry function carries only
`no_mangle`, and no configured required lint (`BUILTIN_LINTS`) appears among
any emitted attributes. -/
theorem generator_emits_no_lints :
    ∃ file,
      generate_function_source (fun _ => none) 42
          "#![allow(unsafe_code)] 1" [(.BuiltIn .INT4OID, some "a")]
          (.BuiltIn .INT4OID) false false = .ok file ∧
        file.fileAttrs = [] ∧
        file.userFn.attrs = [] ∧
        file.entryFn.attrs = ["no_mangle"] ∧
        ∀ lint ∈ lintNames BUILTIN_LINTS,
          lint ∉ file.fileAttrs ∧ lint ∉ file.userFn.attrs ∧
            lint ∉ file.entryFn.attrs := by
  refine ⟨_, rfl, rfl, rfl, rfl, ?_⟩
  decide

/-! ## Build failure reporting (claim C7) -/

/-- C7 counterexample: a build whose cargo run exits successfully but whose
expected output module is absent returns the captured combined output
WITHOUT the generated source appended — the source does not even occur in
the error text — refuting the claim that this error also carries the
generated source. -/
theorem missing_module_error_lacks_source_cex :
    (compile_function "fn1_2_3" "/plrust/plrust_interface" ""
        "GENERATED_SOURCE" ⟨true, "OUT", "ERR", false⟩).1
      = .error "OUTERR" ∧
      ¬ ("GENERATED_SOURCE".data <:+: "OUTERR".data) :=
  ⟨rfl, by decide⟩

/-- C7 (amended): on a failed toolchain exit, the build error is exactly the
captured combined stdout+stderr with a divider and the generated source
appended, and no rename of the output artifact is attempted; when the
toolchain succeeds but the expected module is absent, the error is exactly
the captured combined output (without the source), and again no rename is
attempted; a rename happens only when the module was found after a
successful exit.  The native pipeline's `StateProvisioned::build`, by
contrast, always attaches the generated source as a report section on
failure, and also never touches the artifact path then. -/
theorem compile_function_failure_reporting (cn ip deps src : String)
    (o : BuildOutcome) :
    (o.success = false →
      (compile_function cn ip deps src o).1
          = .error (o.stdout ++ o.stderr ++ "-----------------\n" ++ src) ∧
        ∀ p, BuildAction.renameModule p ∉ (compile_function cn ip deps src o).2) ∧
      (o.success = true → o.moduleFound = false →
        (compile_function cn ip deps src o).1 = .error (o.stdout ++ o.stderr) ∧
          ∀ p, BuildAction.renameModule p ∉ (compile_function cn ip deps src o).2) ∧
      (∀ p, BuildAction.renameModule p ∈ (compile_function cn ip deps src o).2 →
        o.success = true ∧ o.moduleFound = true) ∧
      (∀ (tgt dir sfx : String) (out : CargoOutput), out.success = false →
        state_provisioned_build (.ok tgt) cn dir sfx src out
          = .error (.cargoBuildFail
              [.stdoutSection out.stdout, .stderrSection out.stderr,
                .sourceSection src])) := by
  obtain ⟨s, so, se, mf⟩ := o
  refine ⟨?_, ?_, ?_, ?_⟩
  · intro hs
    subst hs
    simp [compile_function, create_function_crate]
  · intro hs hm
    subst hs
    subst hm
    simp [compile_function, create_function_crate]
  · intro p hp
    cases s <;> cases mf <;>
      simp [compile_function, create_function_crate] at hp ⊢
  · intro tgt dir sfx out hout
    simp [state_provisioned_build, hout]

/-- C7 witness: a concrete failed build carries the captured output with the
source appended and performs no rename; a concrete missing-module build
reports the bare captured output; a concrete failed native-pipeline build
attaches its three report sections. -/
theorem compile_function_failure_reporting_witness :
    ((compile_function "c" "i" "" "SRC" ⟨false, "A", "B", false⟩).1
          = .error ("A" ++ "B" ++ "-----------------\n" ++ "SRC") ∧
        ∀ p, BuildAction.renameModule p
          ∉ (compile_function "c" "i" "" "SRC" ⟨false, "A", "B", false⟩).2) ∧
      ((compile_function "c" "i" "" "SRC" ⟨true, "A", "B", false⟩).1
          = .error ("A" ++ "B")) ∧
      state_provisioned_build (.ok "x86_64-unknown-linux-gnu") "c" "td" ".so"
          "SRC" ⟨false, "A", "B"⟩
        = .error (.cargoBuildFail
            [.stdoutSection "A", .stderrSection "B", .sourceSection "SRC"]) :=
  ⟨(compile_function_failure_reporting "c" "i" "" "SRC"
      ⟨false, "A", "B", false⟩).1 rfl,
   ((compile_function_failure_reporting "c" "i" "" "SRC"
      ⟨true, "A", "B", false⟩).2.1 rfl rfl).1,
   (compile_function_failure_reporting "c" "i" "" "SRC"
      ⟨false, "A", "B", false⟩).2.2.2 "x86_64-unknown-linux-gnu" "td" ".so"
      ⟨false, "A", "B"⟩ rfl⟩

end PlRust
